import Mathlib

/-!
Verification of the backtest dashboard client and page component.

The sources are a TypeScript REST client (`backtestApi` in
`src/api/backtest.ts`) and a React page (`BacktestPage.tsx`).  We embed
them shallowly: JSON documents are an inductive `Json`, the HTTP layer is
an oracle `Server : Request → Except TsError Json`, and every embedded
operation returns its result together with the list of requests it issued,
so that claims about *which* requests an action performs are stated on the
trace.  JavaScript `undefined` and `null` are both modelled by `Json.null`
(none of the verified claims distinguishes them); member access on a
non-object base, which in JavaScript yields `undefined` (or throws on a
`null` base), is modelled as `Json.null`.
-/

/-- A JSON document as exchanged with the backtest HTTP API.  Object
fields keep their insertion order, as JavaScript objects do. -/
inductive Json where
  | null : Json
  | bool : Bool → Json
  | num : Int → Json
  | str : String → Json
  | arr : List Json → Json
  | obj : List (String × Json) → Json
deriving Repr

/-- JavaScript truthiness of a value; `Json.null` also stands for
`undefined`. -/
def jsTruthy : Json → Bool
  | Json.null => false
  | Json.bool b => b
  | Json.num n => n != 0
  | Json.str s => s != ""
  | Json.arr _ => true
  | Json.obj _ => true

/-- First-match lookup of a key in an association list, as JavaScript
property access on an object literal. -/
def jlookup (k : String) : List (String × Json) → Option Json
  | [] => none
  | (k2, v) :: rest => if k2 = k then some v else jlookup k rest

/-- JavaScript member access `data.k`: the field when present, otherwise
`Json.null` (standing for `undefined`). -/
def jget (j : Json) (k : String) : Json :=
  match j with
  | Json.obj fields =>
      match jlookup k fields with
      | some v => v
      | none => Json.null
  | _ => Json.null

/-- Capitalization of one word (the JavaScript spelling step of camel
casing): upper-case the first character. -/
def capWord : List Char → List Char
  | [] => []
  | c :: rest => c.toUpper :: rest

/-- Split a character list at underscores (the camel-casing word
splitter). -/
def splitU : List Char → List (List Char)
  | [] => [[]]
  | c :: rest =>
    match splitU rest with
    | [] => [[c]]
    | w :: ws => if c = '_' then [] :: w :: ws else (c :: w) :: ws

/-- Modelled from the spec: the `toCamelCase` key-conversion utility
(`src/api/utils`, not among the given sources) converts each key from the
snake_case wire spelling to camel case: `eval_window_days` becomes
`evalWindowDays`. -/
def snakeToCamel (s : String) : String :=
  match splitU s.data with
  | [] => s
  | w :: ws => String.mk (w ++ (ws.map capWord).flatten)

/-- Model of the JavaScript builtin `String.prototype.trim`. -/
def jsTrim (s : String) : String :=
  String.mk (((s.data.dropWhile Char.isWhitespace).reverse.dropWhile Char.isWhitespace).reverse)

/-- Boolean string-prefix test on character lists. -/
def leadsWith : List Char → List Char → Bool
  | [], _ => true
  | _ :: _, [] => false
  | a :: as, b :: bs => a == b && leadsWith as bs

/-- Modelled from the spec: `toCamelCase` (`src/api/utils`, not among the
given sources) renames the keys of a JSON object from the snake_case wire
format to camel case; it is applied once per object, and the client maps
it over list items separately, so we model it as acting on the top-level
keys and leave other values unchanged. -/
def toCamelCase : Json → Json
  | Json.obj fields => Json.obj (fields.map (fun p => (snakeToCamel p.1, p.2)))
  | j => j

/-- A value thrown by a failing `await` in the client, as inspected by the
`catch` blocks of `backtest.ts`: either an object carrying a `response`
field (an axios-style HTTP error, whose response may lack a status), an
object without one, or a non-object throw.  `msg` is `some m` when the
value is a JavaScript `Error` with message `m`; `errId` gives errors an
identity so that "rejects with the original error" is meaningful. -/
inductive TsError where
  | objWithResponse : Option Int → Option String → Nat → TsError
  | objNoResponse : Option String → Nat → TsError
  | nonObj : Nat → TsError
deriving Repr, DecidableEq

/-- The test performed by the performance-endpoint catch blocks:
`err && typeof err === "object" && "response" in err &&
err.response?.status === 404`. -/
def is404 : TsError → Bool
  | TsError.objWithResponse (some s) _ _ => s == 404
  | _ => false

/-- The message the page derives from a thrown value:
`err instanceof Error ? err.message : "Backtest failed"`. -/
def errMessage : TsError → String
  | TsError.objWithResponse _ (some m) _ => m
  | TsError.objNoResponse (some m) _ => m
  | _ => "Backtest failed"

/-- An HTTP request as assembled by the client: method, path, query
parameters (in insertion order) and optional JSON body. -/
structure Request where
  method : String
  url : String
  query : List (String × Json)
  body : Option Json
deriving Repr

/-- The HTTP layer: what `apiClient` resolves or rejects with for each
request.  `Except.error e` is the thrown value caught by the client. -/
def Server : Type := Request → Except TsError Json

/-- Model of the JavaScript builtin `encodeURIComponent`: unreserved
characters pass through, every other character is percent-encoded byte by
byte in UTF-8. -/
def isUnreservedURIChar (c : Char) : Bool :=
  c.isAlphanum || c == '-' || c == '_' || c == '.' || c == '!' ||
    c == '~' || c == '*' || c == Char.ofNat 39 || c == '(' || c == ')'

/-- The UTF-8 bytes of a character. -/
def utf8Bytes (c : Char) : List Nat :=
  let n := c.toNat
  if n < 0x80 then [n]
  else if n < 0x800 then [0xC0 + n / 64, 0x80 + n % 64]
  else if n < 0x10000 then [0xE0 + n / 4096, 0x80 + (n / 64) % 64, 0x80 + n % 64]
  else [0xF0 + n / 262144, 0x80 + (n / 4096) % 64, 0x80 + (n / 64) % 64, 0x80 + n % 64]

/-- An uppercase hexadecimal digit. -/
def hexDigit (n : Nat) : Char :=
  if n < 10 then Char.ofNat (48 + n) else Char.ofNat (55 + n)

/-- Percent-encoding of one byte. -/
def pctByte (b : Nat) : String :=
  "%" ++ String.singleton (hexDigit (b / 16)) ++ String.singleton (hexDigit (b % 16))

/-- Model of the JavaScript builtin `encodeURIComponent`. -/
def encodeURIComponent (s : String) : String :=
  String.join (s.data.map (fun c =>
    if isUnreservedURIChar c then String.singleton c
    else String.join ((utf8Bytes c).map pctByte)))

/-- The JavaScript idiom `x || undefined` on an optional string: an empty
(or absent) string becomes `none`. -/
def orUndef : Option String → Option String
  | some s => if s = "" then none else some s
  | none => none

/-- `codeFilter.trim() || undefined` as used by all page handlers. -/
def orUndefStr (s : String) : Option String :=
  if s = "" then none else some s

/-- Parameters of `backtestApi.run` (`BacktestRunRequest`): all fields
optional. -/
structure BacktestRunRequest where
  code : Option String := none
  force : Option Bool := none
  evalWindowDays : Option Int := none
  limit : Option Int := none

/-- Parameters of `backtestApi.getResults`. -/
structure GetResultsParams where
  code : Option String := none
  page : Option Int := none
  limit : Option Int := none

/-- The value `getResults` resolves with: `{total, page, limit, items}`
taken from the normalized response (each may be `Json.null` when the
server omitted it; `items` is always built as an array). -/
structure BacktestResultsResponse where
  total : Json
  page : Json
  limit : Json
  items : Json
deriving Repr

/-- `if (params.code) requestData.code = params.code`: the `code` body
field, present only when truthy. -/
def codeField (o : Option String) : List (String × Json) :=
  match o with
  | some c => if c ≠ "" then [("code", Json.str c)] else []
  | none => []

/-- `if (params.force) requestData.force = params.force`: the `force`
body field, present only when truthy (that is, `true`). -/
def forceField (o : Option Bool) : List (String × Json) :=
  if o = some true then [("force", Json.bool true)] else []

/-- `if (params.evalWindowDays) requestData.eval_window_days = ...`: the
`eval_window_days` body field, present only when truthy (nonzero). -/
def ewdField (o : Option Int) : List (String × Json) :=
  match o with
  | some n => if n ≠ 0 then [("eval_window_days", Json.num n)] else []
  | none => []

/-- `if (params.limit) requestData.limit = params.limit`: the `limit`
body field, present only when truthy (nonzero). -/
def limitField (o : Option Int) : List (String × Json) :=
  match o with
  | some n => if n ≠ 0 then [("limit", Json.num n)] else []
  | none => []

/-- The request `run` sends: `POST /api/v1/backtest/run` with a body that
holds each parameter only when it is JavaScript-truthy, `evalWindowDays`
renamed to the wire key `eval_window_days`. -/
def runRequest (params : BacktestRunRequest) : Request :=
  { method := "POST"
    url := "/api/v1/backtest/run"
    query := []
    body := some (Json.obj (
      codeField params.code ++ forceField params.force ++
        ewdField params.evalWindowDays ++ limitField params.limit)) }

/-- The request `getResults` sends: `GET /api/v1/backtest/results` with
query `{page, limit}` (defaults 1 and 20) and `code` only when truthy. -/
def resultsRequest (params : GetResultsParams) : Request :=
  { method := "GET"
    url := "/api/v1/backtest/results"
    query :=
      [("page", Json.num (params.page.getD 1)), ("limit", Json.num (params.limit.getD 20))]
      ++ (match params.code with
        | some c => if c ≠ "" then [("code", Json.str c)] else []
        | none => [])
    body := none }

/-- The request `getOverallPerformance` sends. -/
def overallPerfRequest : Request :=
  { method := "GET", url := "/api/v1/backtest/performance", query := [], body := none }

/-- The request `getStockPerformance` sends. -/
def stockPerfRequest (code : String) : Request :=
  { method := "GET"
    url := "/api/v1/backtest/performance/" ++ encodeURIComponent code
    query := []
    body := none }

/-- The error thrown by `(data.items || []).map(...)` when `items` is a
truthy non-array: a `TypeError`, an `Error` instance without a `response`
field. -/
def mapTypeError : TsError :=
  TsError.objNoResponse (some "items.map is not a function") 0

/-- `backtestApi.run`: posts the truthy parameters and normalizes the
response; a transport error propagates unchanged.  The second component
is the list of HTTP requests issued. -/
def backtestApi.run (server : Server) (params : BacktestRunRequest) :
    Except TsError Json × List Request :=
  (match server (runRequest params) with
   | Except.ok data => Except.ok (toCamelCase data)
   | Except.error e => Except.error e,
   [runRequest params])

/-- `backtestApi.getResults`: fetches one page of results, normalizes the
response, and rebuilds `{total, page, limit, items}` with `items`
defaulted to `[]` when falsy and each item normalized. -/
def backtestApi.getResults (server : Server) (params : GetResultsParams) :
    Except TsError BacktestResultsResponse × List Request :=
  (match server (resultsRequest params) with
   | Except.error e => Except.error e
   | Except.ok raw =>
      let data := toCamelCase raw
      let itemsVal := if jsTruthy (jget data "items") then jget data "items" else Json.arr []
      match itemsVal with
      | Json.arr xs =>
          Except.ok
            { total := jget data "total"
              page := jget data "page"
              limit := jget data "limit"
              items := Json.arr (xs.map toCamelCase) }
      | _ => Except.error mapTypeError,
   [resultsRequest params])

/-- `backtestApi.getOverallPerformance`: fetches the aggregate metrics; a
404 from the endpoint resolves to `none`, any other error propagates. -/
def backtestApi.getOverallPerformance (server : Server) :
    Except TsError (Option Json) × List Request :=
  (match server overallPerfRequest with
   | Except.ok data => Except.ok (some (toCamelCase data))
   | Except.error e =>
      if is404 e then Except.ok none else Except.error e,
   [overallPerfRequest])

/-- `backtestApi.getStockPerformance`: fetches per-stock metrics; a 404
resolves to `none`, any other error propagates. -/
def backtestApi.getStockPerformance (server : Server) (code : String) :
    Except TsError (Option Json) × List Request :=
  (match server (stockPerfRequest code) with
   | Except.ok data => Except.ok (some (toCamelCase data))
   | Except.error e =>
      if is404 e then Except.ok none else Except.error e,
   [stockPerfRequest code])

/-- The local state of `BacktestPage` (its `useState` hooks).  Values set
from server data keep their `Json` form; `totalResults` and `currentPage`
hold whatever `response.total` and `response.page` carried. -/
structure PageState where
  codeFilter : String
  isRunning : Bool
  runResult : Option Json
  runError : Option String
  results : Json
  totalResults : Json
  currentPage : Json
  isLoadingResults : Bool
  overallPerf : Option Json
  stockPerf : Option Json
  isLoadingPerf : Bool
deriving Repr

/-- The initial hook values of `BacktestPage`. -/
def initialPageState : PageState :=
  { codeFilter := ""
    isRunning := false
    runResult := none
    runError := none
    results := Json.arr []
    totalResults := Json.num 0
    currentPage := Json.num 1
    isLoadingResults := false
    overallPerf := none
    stockPerf := none
    isLoadingPerf := false }

/-- `fetchResults(page, code)`: loads one result page; on success stores
`items`, `total` and `page`, on failure only logs; the loading flag is
always cleared by the `finally` block. -/
def fetchResults (server : Server) (s : PageState) (page : Int) (code : Option String) :
    PageState × List Request :=
  (match (backtestApi.getResults server
      { code := orUndef code, page := some page, limit := some 20 }).1 with
   | Except.ok resp =>
      { s with
          results := resp.items
          totalResults := resp.total
          currentPage := resp.page
          isLoadingResults := false }
   | Except.error _ => { s with isLoadingResults := false },
   [resultsRequest { code := orUndef code, page := some page, limit := some 20 }])

/-- `fetchPerformance(code)`: loads the overall metrics, then — only when
a truthy code was given — the per-stock metrics; a rejection anywhere in
the `try` block jumps to the `catch` (which only logs), so a rejected
per-stock fetch leaves `stockPerf` alone while `overallPerf` has already
been stored.  The loading flag is always cleared by the `finally` block. -/
def fetchPerformance (server : Server) (s : PageState) (code : Option String) :
    PageState × List Request :=
  match (backtestApi.getOverallPerformance server).1 with
  | Except.error _ => ({ s with isLoadingPerf := false }, [overallPerfRequest])
  | Except.ok overall =>
      match orUndef code with
      | some c =>
          (match (backtestApi.getStockPerformance server c).1 with
           | Except.ok stock =>
              { s with overallPerf := overall, stockPerf := stock, isLoadingPerf := false }
           | Except.error _ =>
              { s with overallPerf := overall, isLoadingPerf := false },
           [overallPerfRequest, stockPerfRequest c])
      | none =>
          ({ s with overallPerf := overall, stockPerf := none, isLoadingPerf := false },
           [overallPerfRequest])

/-- `handleRun`: triggers the backtest with the trimmed filter as optional
code; on success stores the run summary and refreshes the result list at
page 1 and the performance metrics, both with the trimmed filter; on
failure stores the error message.  The asynchronous refreshes are modelled
sequentially (the page issues them and they run to completion with no
further user input in between). -/
def handleRun (server : Server) (s : PageState) : PageState × List Request :=
  let s1 := { s with isRunning := true, runResult := none, runError := none }
  let code := orUndefStr (jsTrim s1.codeFilter)
  let rr := backtestApi.run server { code := code }
  match rr.1 with
  | Except.ok d =>
      let s2 := { s1 with runResult := some d }
      let fr := fetchResults server s2 1 (orUndefStr (jsTrim s2.codeFilter))
      let fp := fetchPerformance server fr.1 (orUndefStr (jsTrim s2.codeFilter))
      ({ fp.1 with isRunning := false }, rr.2 ++ fr.2 ++ fp.2)
  | Except.error e =>
      ({ s1 with runError := some (errMessage e), isRunning := false }, rr.2)

/-- `handleFilter`: resets the page to 1 and refreshes the result list
(page 1, trimmed filter) and the performance metrics (trimmed filter). -/
def handleFilter (server : Server) (s : PageState) : PageState × List Request :=
  let code := orUndefStr (jsTrim s.codeFilter)
  let s1 := { s with currentPage := Json.num 1 }
  let fr := fetchResults server s1 1 code
  let fp := fetchPerformance server fr.1 code
  (fp.1, fr.2 ++ fp.2)

/-- `handlePageChange`: fetches the requested result page with the
trimmed filter. -/
def handlePageChange (server : Server) (s : PageState) (page : Int) :
    PageState × List Request :=
  fetchResults server s page (orUndefStr (jsTrim s.codeFilter))

/-- A request is a per-stock performance fetch exactly when its path lies
under the performance endpoint. -/
def isStockPerfReq (r : Request) : Bool :=
  leadsWith "/api/v1/backtest/performance/".data r.url.data

/-- A server whose overall-performance endpoint decides whether a
performance refresh aborts before the per-stock fetch: `true` when that
endpoint rejects with a non-404 error. -/
def overallRejects (server : Server) : Bool :=
  match server overallPerfRequest with
  | Except.error e => !is404 e
  | Except.ok _ => false

/-- Wire-format aggregate metrics used by concrete scenarios. -/
def perfWire : Json := Json.obj [("win_rate_pct", Json.num 50)]

/-- Wire-format run summary used by concrete scenarios. -/
def runSummaryWire : Json :=
  Json.obj [("processed", Json.num 3), ("saved", Json.num 2)]

/-- Wire-format results page used by concrete scenarios. -/
def resultsWire : Json :=
  Json.obj [("total", Json.num 45), ("page", Json.num 2), ("limit", Json.num 20),
    ("items", Json.arr [Json.obj [("analysis_history_id", Json.num 9)]])]

/-- A server on which every endpoint responds 404. -/
def srv404 : Server :=
  fun _ => Except.error (TsError.objWithResponse (some 404) none 1)

/-- A server on which every request fails with a non-404 network error. -/
def srvDown : Server :=
  fun _ => Except.error (TsError.objNoResponse (some "network down") 7)

/-- A server answering every endpoint successfully. -/
def srvOk : Server := fun r =>
  if r.url = "/api/v1/backtest/run" then Except.ok runSummaryWire
  else if r.url = "/api/v1/backtest/results" then Except.ok resultsWire
  else Except.ok perfWire

/-- A server answering only the overall-performance endpoint; everything
else rejects with a non-404 error. -/
def srvPerfOnly : Server := fun r =>
  if r.url = "/api/v1/backtest/performance" then Except.ok (Json.num 2)
  else Except.error (TsError.objNoResponse none 7)

/-- A server whose results endpoint answers without an `items` field. -/
def srvNoItems : Server := fun r =>
  if r.url = "/api/v1/backtest/results" then Except.ok (Json.obj [("total", Json.num 3)])
  else Except.error (TsError.objNoResponse none 7)

/-- Page state with the filter text set to `AAPL`. -/
def stAAPL : PageState := { initialPageState with codeFilter := "AAPL" }

/-- Page state that already shows overall metrics and has a filter set. -/
def stPrior : PageState :=
  { initialPageState with overallPerf := some (Json.num 1), codeFilter := "AAPL" }

/-! ## Helper lemmas -/

theorem run_trace (server : Server) (params : BacktestRunRequest) :
    (backtestApi.run server params).2 = [runRequest params] := rfl

theorem getResults_trace (server : Server) (params : GetResultsParams) :
    (backtestApi.getResults server params).2 = [resultsRequest params] := rfl

theorem getOverall_trace (server : Server) :
    (backtestApi.getOverallPerformance server).2 = [overallPerfRequest] := rfl

theorem getStock_trace (server : Server) (c : String) :
    (backtestApi.getStockPerformance server c).2 = [stockPerfRequest c] := rfl

theorem fetchResults_trace (server : Server) (s : PageState) (page : Int) (code : Option String) :
    (fetchResults server s page code).2 =
      [resultsRequest { code := orUndef code, page := some page, limit := some 20 }] := rfl

theorem fetchResults_preserves (server : Server) (s : PageState) (page : Int)
    (code : Option String) :
    ((fetchResults server s page code).1).codeFilter = s.codeFilter ∧
    ((fetchResults server s page code).1).overallPerf = s.overallPerf ∧
    ((fetchResults server s page code).1).stockPerf = s.stockPerf ∧
    ((fetchResults server s page code).1).isLoadingPerf = s.isLoadingPerf ∧
    ((fetchResults server s page code).1).isRunning = s.isRunning ∧
    ((fetchResults server s page code).1).runResult = s.runResult ∧
    ((fetchResults server s page code).1).runError = s.runError ∧
    ((fetchResults server s page code).1).isLoadingResults = false := by
  unfold fetchResults
  cases (backtestApi.getResults server
    { code := orUndef code, page := some page, limit := some 20 }).1 <;>
    exact ⟨rfl, rfl, rfl, rfl, rfl, rfl, rfl, rfl⟩

theorem leadsWith_self_append (l m : List Char) : leadsWith l (l ++ m) = true := by
  induction l with
  | nil => rfl
  | cons a as ih => simp [leadsWith, ih]

theorem isStockPerfReq_stock (c : String) : isStockPerfReq (stockPerfRequest c) = true := by
  unfold isStockPerfReq stockPerfRequest
  show leadsWith _ ("/api/v1/backtest/performance/" ++ encodeURIComponent c).data = true
  rw [String.data_append]
  exact leadsWith_self_append _ _

theorem isStockPerfReq_overall : isStockPerfReq overallPerfRequest = false := by decide

theorem isStockPerfReq_results (params : GetResultsParams) :
    isStockPerfReq (resultsRequest params) = false := by
  show leadsWith _ "/api/v1/backtest/results".data = false
  decide

theorem fetchPerformance_trace (server : Server) (s : PageState) (code : Option String) :
    (fetchPerformance server s code).2 =
      overallPerfRequest ::
        (match orUndef code with
         | some c => if overallRejects server then [] else [stockPerfRequest c]
         | none => []) := by
  unfold fetchPerformance overallRejects backtestApi.getOverallPerformance
  cases h : server overallPerfRequest
  case error e =>
    cases h4 : is404 e
    case false =>
      simp only [h4]
      cases orUndef code <;> simp
    case true =>
      cases horu : orUndef code
      case none => simp [h4, horu]
      case some c =>
        cases (backtestApi.getStockPerformance server c).1 <;> simp [h4, horu, getStock_trace]
  case ok d =>
    cases horu : orUndef code
    case none => simp [horu]
    case some c =>
      cases (backtestApi.getStockPerformance server c).1 <;> simp [horu, getStock_trace]

theorem fetchPerformance_any_stock (server : Server) (s : PageState) (code : Option String) :
    ((fetchPerformance server s code).2.any isStockPerfReq) =
      ((orUndef code).isSome && !overallRejects server) := by
  rw [fetchPerformance_trace]
  cases horu : orUndef code <;> cases hr : overallRejects server <;>
    simp [isStockPerfReq_overall, isStockPerfReq_stock]

/-! ## Claims -/

/-- C1: for both `getOverallPerformance()` and `getStockPerformance(code)`,
an HTTP failure carrying status 404 makes the call resolve to `null`
instead of rejecting. -/
theorem c1_performance_404_resolves_null (server : Server) (msg : Option String) (id : Nat) :
    (server overallPerfRequest = Except.error (TsError.objWithResponse (some 404) msg id) →
      backtestApi.getOverallPerformance server = (Except.ok none, [overallPerfRequest])) ∧
    (∀ c, server (stockPerfRequest c) = Except.error (TsError.objWithResponse (some 404) msg id) →
      backtestApi.getStockPerformance server c = (Except.ok none, [stockPerfRequest c])) := by
  constructor
  · intro h
    unfold backtestApi.getOverallPerformance
    rw [h]
    simp [is404]
  · intro c h
    unfold backtestApi.getStockPerformance
    rw [h]
    simp [is404]

/-- Witness for C1 on a concrete all-404 server. -/
theorem c1_witness :
    backtestApi.getOverallPerformance srv404 = (Except.ok none, [overallPerfRequest]) ∧
    backtestApi.getStockPerformance srv404 "AAPL" = (Except.ok none, [stockPerfRequest "AAPL"]) :=
  ⟨(c1_performance_404_resolves_null srv404 none 1).1 rfl,
   (c1_performance_404_resolves_null srv404 none 1).2 "AAPL" rfl⟩

/-- C6: for both performance calls, an HTTP failure that is not a 404
response propagates to the caller as the original, unmodified error. -/
theorem c6_non404_error_propagates (server : Server) (e : TsError) (h404 : is404 e = false) :
    (server overallPerfRequest = Except.error e →
      backtestApi.getOverallPerformance server = (Except.error e, [overallPerfRequest])) ∧
    (∀ c, server (stockPerfRequest c) = Except.error e →
      backtestApi.getStockPerformance server c = (Except.error e, [stockPerfRequest c])) := by
  constructor
  · intro h
    unfold backtestApi.getOverallPerformance
    rw [h]
    simp [h404]
  · intro c h
    unfold backtestApi.getStockPerformance
    rw [h]
    simp [h404]

/-- Witness for C6 on a concrete network-error server. -/
theorem c6_witness :
    is404 (TsError.objNoResponse (some "network down") 7) = false ∧
    backtestApi.getOverallPerformance srvDown =
      (Except.error (TsError.objNoResponse (some "network down") 7), [overallPerfRequest]) ∧
    backtestApi.getStockPerformance srvDown "AAPL" =
      (Except.error (TsError.objNoResponse (some "network down") 7), [stockPerfRequest "AAPL"]) :=
  ⟨rfl,
   (c6_non404_error_propagates srvDown (TsError.objNoResponse (some "network down") 7) rfl).1 rfl,
   (c6_non404_error_propagates srvDown (TsError.objNoResponse (some "network down") 7) rfl).2
     "AAPL" rfl⟩

/-- C7: `getResults({})` issues a request whose query carries page 1 and
limit 20 and no `code` parameter. -/
theorem c7_getresults_defaults (server : Server) :
    (backtestApi.getResults server {}).2 =
      [{ method := "GET", url := "/api/v1/backtest/results",
         query := [("page", Json.num 1), ("limit", Json.num 20)], body := none }] := rfl

/-- C2: `getResults({code:"AAPL", page:2, limit:20})` against a server
answering `{total:45, page:2, limit:20, items:[...]}` resolves to exactly
that shape — the same total, page and limit — with every item's keys
converted to camel case. -/
theorem c2_getresults_exact_shape (server : Server) (items : List Json)
    (h : server (resultsRequest { code := some "AAPL", page := some 2, limit := some 20 }) =
      Except.ok (Json.obj [("total", Json.num 45), ("page", Json.num 2),
        ("limit", Json.num 20), ("items", Json.arr items)])) :
    backtestApi.getResults server { code := some "AAPL", page := some 2, limit := some 20 } =
      (Except.ok
        { total := Json.num 45, page := Json.num 2, limit := Json.num 20,
          items := Json.arr (items.map toCamelCase) },
       [resultsRequest { code := some "AAPL", page := some 2, limit := some 20 }]) := by
  unfold backtestApi.getResults
  rw [h]
  rfl

/-- Witness for C2 on a concrete server whose results endpoint answers
`{total:45, page:2, limit:20, items:[{analysis_history_id:9}]}`. -/
theorem c2_witness :
    backtestApi.getResults srvOk { code := some "AAPL", page := some 2, limit := some 20 } =
      (Except.ok
        { total := Json.num 45, page := Json.num 2, limit := Json.num 20,
          items := Json.arr [Json.obj [("analysisHistoryId", Json.num 9)]] },
       [resultsRequest { code := some "AAPL", page := some 2, limit := some 20 }]) := by
  have h := c2_getresults_exact_shape srvOk [Json.obj [("analysis_history_id", Json.num 9)]] rfl
  exact h.trans (by rfl)

theorem jlookup_append (k : String) (xs ys : List (String × Json)) :
    jlookup k (xs ++ ys) =
      (match jlookup k xs with
       | some v => some v
       | none => jlookup k ys) := by
  induction xs with
  | nil => simp [jlookup]
  | cons p rest ih =>
      obtain ⟨k2, v⟩ := p
      by_cases h : k2 = k <;> simp [jlookup, h, ih]

theorem jlookup_codeField_code (o : Option String) :
    jlookup "code" (codeField o) =
      (match o with
       | some c => if c ≠ "" then some (Json.str c) else none
       | none => none) := by
  cases o with
  | none => rfl
  | some c => by_cases h : c = "" <;> simp [codeField, jlookup, h]

theorem jlookup_codeField_other (k : String) (h : k ≠ "code") (o : Option String) :
    jlookup k (codeField o) = none := by
  cases o with
  | none => rfl
  | some c => by_cases hc : c = "" <;> simp [codeField, jlookup, hc, Ne.symm h]

theorem jlookup_forceField_force (o : Option Bool) :
    jlookup "force" (forceField o) = (if o = some true then some (Json.bool true) else none) := by
  unfold forceField
  split <;> simp [jlookup]

theorem jlookup_forceField_other (k : String) (h : k ≠ "force") (o : Option Bool) :
    jlookup k (forceField o) = none := by
  by_cases hb : o = some true <;> simp [forceField, jlookup, hb, Ne.symm h]

theorem jlookup_ewdField_ewd (o : Option Int) :
    jlookup "eval_window_days" (ewdField o) =
      (match o with
       | some n => if n ≠ 0 then some (Json.num n) else none
       | none => none) := by
  cases o with
  | none => rfl
  | some n => by_cases h : n = 0 <;> simp [ewdField, jlookup, h]

theorem jlookup_ewdField_other (k : String) (h : k ≠ "eval_window_days") (o : Option Int) :
    jlookup k (ewdField o) = none := by
  cases o with
  | none => rfl
  | some n => by_cases hn : n = 0 <;> simp [ewdField, jlookup, hn, Ne.symm h]

theorem jlookup_limitField_limit (o : Option Int) :
    jlookup "limit" (limitField o) =
      (match o with
       | some n => if n ≠ 0 then some (Json.num n) else none
       | none => none) := by
  cases o with
  | none => rfl
  | some n => by_cases h : n = 0 <;> simp [limitField, jlookup, h]

theorem jlookup_limitField_other (k : String) (h : k ≠ "limit") (o : Option Int) :
    jlookup k (limitField o) = none := by
  cases o with
  | none => rfl
  | some n => by_cases hn : n = 0 <;> simp [limitField, jlookup, hn, Ne.symm h]

theorem mem_codeField (kv : String × Json) (o : Option String) (h : kv ∈ codeField o) :
    kv.1 = "code" := by
  cases o with
  | none => cases h
  | some c =>
      unfold codeField at h
      split at h <;> simp_all

theorem mem_forceField (kv : String × Json) (o : Option Bool) (h : kv ∈ forceField o) :
    kv.1 = "force" := by
  unfold forceField at h
  split at h <;> simp_all

theorem mem_ewdField (kv : String × Json) (o : Option Int) (h : kv ∈ ewdField o) :
    kv.1 = "eval_window_days" := by
  cases o with
  | none => cases h
  | some n =>
      unfold ewdField at h
      split at h <;> simp_all

theorem mem_limitField (kv : String × Json) (o : Option Int) (h : kv ∈ limitField o) :
    kv.1 = "limit" := by
  cases o with
  | none => cases h
  | some n =>
      unfold limitField at h
      split at h <;> simp_all

/-- C9: `run(params)` posts to `/api/v1/backtest/run` a body holding
exactly the optional fields `code`, `force`, `eval_window_days`
(renamed from `evalWindowDays`) and `limit` taken from `params` — each
present exactly when its parameter is JavaScript-truthy — and a transport
failure rejects with the transport error unchanged. -/
theorem c9_run_body_and_error (params : BacktestRunRequest) (server : Server) :
    (runRequest params).method = "POST" ∧
    (runRequest params).url = "/api/v1/backtest/run" ∧
    (backtestApi.run server params).2 = [runRequest params] ∧
    (∃ b, (runRequest params).body = some (Json.obj b) ∧
      jlookup "code" b = (match params.code with
        | some c => if c ≠ "" then some (Json.str c) else none
        | none => none) ∧
      jlookup "force" b = (if params.force = some true then some (Json.bool true) else none) ∧
      jlookup "eval_window_days" b = (match params.evalWindowDays with
        | some n => if n ≠ 0 then some (Json.num n) else none
        | none => none) ∧
      jlookup "limit" b = (match params.limit with
        | some n => if n ≠ 0 then some (Json.num n) else none
        | none => none) ∧
      (∀ kv ∈ b, kv.1 = "code" ∨ kv.1 = "force" ∨ kv.1 = "eval_window_days" ∨
        kv.1 = "limit")) ∧
    (∀ e, server (runRequest params) = Except.error e →
      (backtestApi.run server params).1 = Except.error e) := by
  obtain ⟨pc, pf, pe, pl⟩ := params
  refine ⟨rfl, rfl, rfl,
    ⟨codeField pc ++ forceField pf ++ ewdField pe ++ limitField pl, rfl, ?_, ?_, ?_, ?_, ?_⟩,
    ?_⟩
  · simp only [jlookup_append, jlookup_forceField_other "code" (by decide) pf,
      jlookup_ewdField_other "code" (by decide) pe,
      jlookup_limitField_other "code" (by decide) pl, jlookup_codeField_code]
    cases pc with
    | none => rfl
    | some c => by_cases h : c = "" <;> simp [h]
  · simp only [jlookup_append, jlookup_codeField_other "force" (by decide) pc,
      jlookup_ewdField_other "force" (by decide) pe,
      jlookup_limitField_other "force" (by decide) pl, jlookup_forceField_force]
    by_cases hb : pf = some true <;> simp [hb]
  · simp only [jlookup_append, jlookup_codeField_other "eval_window_days" (by decide) pc,
      jlookup_forceField_other "eval_window_days" (by decide) pf,
      jlookup_limitField_other "eval_window_days" (by decide) pl, jlookup_ewdField_ewd]
    cases pe with
    | none => rfl
    | some n => by_cases h : n = 0 <;> simp [h]
  · simp only [jlookup_append, jlookup_codeField_other "limit" (by decide) pc,
      jlookup_forceField_other "limit" (by decide) pf,
      jlookup_ewdField_other "limit" (by decide) pe, jlookup_limitField_limit]
  · intro kv hkv
    rcases List.mem_append.mp hkv with hm | hm4
    · rcases List.mem_append.mp hm with hm2 | hm3
      · rcases List.mem_append.mp hm2 with hc | hf
        · exact Or.inl (mem_codeField kv pc hc)
        · exact Or.inr (Or.inl (mem_forceField kv pf hf))
      · exact Or.inr (Or.inr (Or.inl (mem_ewdField kv pe hm3)))
    · exact Or.inr (Or.inr (Or.inr (mem_limitField kv pl hm4)))
  · intro e h
    unfold backtestApi.run
    rw [h]

/-- Witness for C9: a concrete run against a failing server rejects with
the server's error, and the body for `{code:"AAPL"}` holds just `code`. -/
theorem c9_witness :
    (backtestApi.run srvDown { code := some "AAPL" }).1 =
      Except.error (TsError.objNoResponse (some "network down") 7) ∧
    (runRequest { code := some "AAPL" }).body = some (Json.obj [("code", Json.str "AAPL")]) := by
  have h := c9_run_body_and_error { code := some "AAPL" } srvDown
  exact ⟨h.2.2.2.2 (TsError.objNoResponse (some "network down") 7) rfl, rfl⟩

/-- C10: whatever the server answers, a successful `getResults` always
resolves with an array `items` field, and when the normalized response
carries no (or a null) `items` field that array is empty. -/
theorem c10_items_always_array (server : Server) (params : GetResultsParams) :
    (∀ r, (backtestApi.getResults server params).1 = Except.ok r →
      ∃ xs, r.items = Json.arr xs) ∧
    (∀ raw, server (resultsRequest params) = Except.ok raw →
      jget (toCamelCase raw) "items" = Json.null →
      (backtestApi.getResults server params).1 =
        Except.ok
          { total := jget (toCamelCase raw) "total"
            page := jget (toCamelCase raw) "page"
            limit := jget (toCamelCase raw) "limit"
            items := Json.arr [] }) := by
  constructor
  · intro r hr
    cases h : server (resultsRequest params) with
    | error e =>
        simp only [backtestApi.getResults, h] at hr
        exact Except.noConfusion hr
    | ok raw =>
        simp only [backtestApi.getResults, h] at hr
        split at hr
        · obtain rfl : _ = r := Except.ok.inj hr
          exact ⟨_, rfl⟩
        · exact absurd hr (by simp)
  · intro raw h hnull
    simp only [backtestApi.getResults, h, hnull, jsTruthy]
    rfl

/-- Witness for C10 on a concrete server whose results endpoint answers
`{total:3}` with no `items` field. -/
theorem c10_witness :
    (backtestApi.getResults srvNoItems {}).1 =
      Except.ok
        { total := Json.num 3, page := Json.null, limit := Json.null, items := Json.arr [] } ∧
    ∃ xs,
      ({ total := Json.num 3, page := Json.null, limit := Json.null,
         items := Json.arr [] } : BacktestResultsResponse).items = Json.arr xs := by
  have h := c10_items_always_array srvNoItems {}
  have h2 := (h.2 (Json.obj [("total", Json.num 3)]) rfl rfl).trans (by rfl)
  exact ⟨h2, h.1 _ h2⟩

/-- C3: when the run call succeeds, `handleRun` stores the normalized
summary and then refreshes the result list at page 1 and the performance
metrics, both with the trimmed filter that was active when the run
started; the issued requests are the run request followed by those of the
two refreshes. -/
theorem c3_run_refreshes (server : Server) (s s2 : PageState) (d : Json) (f : Option String)
    (hf : f = orUndefStr (jsTrim s.codeFilter))
    (hs2 : s2 = { s with isRunning := true, runResult := some (toCamelCase d), runError := none })
    (h : server (runRequest { code := f }) = Except.ok d) :
    handleRun server s =
      ({ (fetchPerformance server (fetchResults server s2 1 f).1 f).1 with isRunning := false },
       runRequest { code := f } ::
         ((fetchResults server s2 1 f).2 ++
          (fetchPerformance server (fetchResults server s2 1 f).1 f).2)) := by
  subst hf hs2
  unfold handleRun
  simp only [backtestApi.run, h, List.singleton_append]
  rfl

/-- Witness for C3: a successful run on a fully answering server
refreshes results at page 1 and both performance metrics with the filter
`AAPL`. -/
theorem c3_witness :
    handleRun srvOk stAAPL =
      ({ codeFilter := "AAPL"
         isRunning := false
         runResult := some (Json.obj [("processed", Json.num 3), ("saved", Json.num 2)])
         runError := none
         results := Json.arr [Json.obj [("analysisHistoryId", Json.num 9)]]
         totalResults := Json.num 45
         currentPage := Json.num 2
         isLoadingResults := false
         overallPerf := some (Json.obj [("winRatePct", Json.num 50)])
         stockPerf := some (Json.obj [("winRatePct", Json.num 50)])
         isLoadingPerf := false },
       [runRequest { code := some "AAPL" },
        resultsRequest { code := some "AAPL", page := some 1, limit := some 20 },
        overallPerfRequest, stockPerfRequest "AAPL"]) := by
  have h := c3_run_refreshes srvOk stAAPL
    { stAAPL with
        isRunning := true
        runResult := some (toCamelCase runSummaryWire)
        runError := none }
    runSummaryWire (some "AAPL") rfl rfl rfl
  exact h.trans (by rfl)

theorem orUndef_orUndefStr (t : String) : orUndef (orUndefStr t) = orUndefStr t := by
  unfold orUndef orUndefStr
  by_cases h : t = "" <;> simp [h]

/-- C5: a page-change request fetches exactly one thing — the result list
at the requested page, keeping the trimmed filter — and leaves the
performance metrics and the filter text unchanged. -/
theorem c5_page_change_only_results (server : Server) (s : PageState) (page : Int) :
    handlePageChange server s page =
      fetchResults server s page (orUndefStr (jsTrim s.codeFilter)) ∧
    (handlePageChange server s page).2 =
      [resultsRequest
        { code := orUndefStr (jsTrim s.codeFilter), page := some page, limit := some 20 }] ∧
    ((handlePageChange server s page).1).codeFilter = s.codeFilter ∧
    ((handlePageChange server s page).1).overallPerf = s.overallPerf ∧
    ((handlePageChange server s page).1).stockPerf = s.stockPerf ∧
    ((handlePageChange server s page).1).isLoadingPerf = s.isLoadingPerf := by
  have hp := fetchResults_preserves server s page (orUndefStr (jsTrim s.codeFilter))
  refine ⟨rfl, ?_, hp.1, hp.2.1, hp.2.2.1, hp.2.2.2.1⟩
  show (fetchResults server s page (orUndefStr (jsTrim s.codeFilter))).2 = _
  rw [fetchResults_trace, orUndef_orUndefStr]

/-- C4 counterexample: a failing performance fetch can still change the
performance state.  With prior overall metrics `1` shown, a server whose
overall endpoint answers `2` but whose per-stock endpoint rejects with a
non-404 error makes `fetchPerformance` fail (its catch runs), yet the
overall metrics have been replaced — they are not left at their prior
value as the claim states. -/
theorem c4_counterexample :
    stPrior.overallPerf = some (Json.num 1) ∧
    srvPerfOnly (stockPerfRequest "AAPL") = Except.error (TsError.objNoResponse none 7) ∧
    is404 (TsError.objNoResponse none 7) = false ∧
    ((fetchPerformance srvPerfOnly stPrior (some "AAPL")).1).overallPerf = some (Json.num 2) ∧
    Json.num 2 ≠ Json.num 1 :=
  ⟨rfl, rfl, rfl, rfl, by simp⟩

/-- C4 (amended): fetch failures are caught and only the state past the
failure point is left unchanged — a failed result-list fetch leaves the
results, total count and current page at their prior values; a rejected
overall-performance fetch leaves both metrics unchanged; a rejected
per-stock fetch leaves `stockPerf` unchanged although `overallPerf` has
already been replaced by then; loading flags are always cleared and the
handlers return normally (no exception escapes). -/
theorem c4_fetch_failures_leave_state (server : Server) (s : PageState) (page : Int)
    (code : Option String) :
    (∀ e, (backtestApi.getResults server
        { code := orUndef code, page := some page, limit := some 20 }).1 = Except.error e →
      (fetchResults server s page code).1 = { s with isLoadingResults := false }) ∧
    (∀ e, server overallPerfRequest = Except.error e → is404 e = false →
      (fetchPerformance server s code).1 = { s with isLoadingPerf := false }) ∧
    (∀ c d e, orUndef code = some c → server overallPerfRequest = Except.ok d →
      server (stockPerfRequest c) = Except.error e → is404 e = false →
      (fetchPerformance server s code).1 =
        { s with overallPerf := some (toCamelCase d), isLoadingPerf := false }) := by
  refine ⟨?_, ?_, ?_⟩
  · intro e he
    simp only [fetchResults, he]
  · intro e he h404
    simp only [fetchPerformance, backtestApi.getOverallPerformance, he, h404]
    simp
  · intro c d e hc ho hs h404
    simp only [fetchPerformance, backtestApi.getOverallPerformance,
      backtestApi.getStockPerformance, ho, hc, hs, h404]
    simp

/-- Witness for the amended C4: a failed result-list fetch against a dead
server leaves the whole page state at its prior values. -/
theorem c4_witness :
    (fetchResults srvDown initialPageState 1 none).1 =
      { initialPageState with isLoadingResults := false } := by
  have h := c4_fetch_failures_leave_state srvDown initialPageState 1 none
  exact h.1 (TsError.objNoResponse (some "network down") 7) rfl

/-- C8 counterexample: the filter text is the non-empty code `AAPL`, yet
submitting the filter against a server whose overall-performance endpoint
rejects issues no per-stock performance request — "per-code metrics are
fetched iff a non-empty code is set" fails in the "if" direction. -/
theorem c8_counterexample :
    jsTrim stAAPL.codeFilter ≠ "" ∧
    (handleFilter srvDown stAAPL).2.any isStockPerfReq = false :=
  ⟨by decide, by rfl⟩

/-- C8 (amended): submitting a filter resets the page to 1 and refreshes
the result list (page 1, trimmed filter) and the performance metrics; the
per-stock metrics are fetched iff a non-empty code is set AND the overall
performance fetch did not reject (a 404 there counts as success). -/
theorem c8_filter_refreshes (server : Server) (s : PageState) :
    handleFilter server s =
      ((fetchPerformance server
          (fetchResults server { s with currentPage := Json.num 1 } 1
            (orUndefStr (jsTrim s.codeFilter))).1
          (orUndefStr (jsTrim s.codeFilter))).1,
       (fetchResults server { s with currentPage := Json.num 1 } 1
          (orUndefStr (jsTrim s.codeFilter))).2 ++
       (fetchPerformance server
          (fetchResults server { s with currentPage := Json.num 1 } 1
            (orUndefStr (jsTrim s.codeFilter))).1
          (orUndefStr (jsTrim s.codeFilter))).2) ∧
    (handleFilter server s).2.take 2 =
      [resultsRequest
        { code := orUndefStr (jsTrim s.codeFilter), page := some 1, limit := some 20 },
       overallPerfRequest] ∧
    (handleFilter server s).2.any isStockPerfReq =
      ((orUndefStr (jsTrim s.codeFilter)).isSome && !overallRejects server) := by
  refine ⟨rfl, ?_, ?_⟩
  · show ((fetchResults server { s with currentPage := Json.num 1 } 1
        (orUndefStr (jsTrim s.codeFilter))).2 ++
      (fetchPerformance server
        (fetchResults server { s with currentPage := Json.num 1 } 1
          (orUndefStr (jsTrim s.codeFilter))).1
        (orUndefStr (jsTrim s.codeFilter))).2).take 2 = _
    rw [fetchResults_trace, fetchPerformance_trace, orUndef_orUndefStr]
    rfl
  · show ((fetchResults server { s with currentPage := Json.num 1 } 1
        (orUndefStr (jsTrim s.codeFilter))).2 ++
      (fetchPerformance server
        (fetchResults server { s with currentPage := Json.num 1 } 1
          (orUndefStr (jsTrim s.codeFilter))).1
        (orUndefStr (jsTrim s.codeFilter))).2).any isStockPerfReq = _
    rw [List.any_append, fetchResults_trace, fetchPerformance_any_stock, orUndef_orUndefStr]
    simp [isStockPerfReq_results]

/-- Witness for the amended C8: with code `AAPL` and a fully answering
server, the submitted filter does issue a per-stock performance fetch. -/
theorem c8_witness :
    (handleFilter srvOk stAAPL).2.any isStockPerfReq = true := by
  have h := (c8_filter_refreshes srvOk stAAPL).2.2
  exact h.trans (by rfl)
